import Mathlib

/-!
Shallow embedding of the scene-viewer camera/input integrator
(`src/lib.rs`, `SceneViewer` and its `handle_event` implementation).

`f32`/`f64` arithmetic is idealised as real arithmetic; all state that the
claims touch (`scancode_status`, `camera_pitch`, `camera_yaw`,
`camera_location`, `last_mouse_delta`, and the pointer-grab flag) is carried
in an explicit `AppState`, and the event-loop arms of `handle_event` become a
transition function on that state.  Purely observational effects (the
frame-time histogram, `println!` output, GPU work) have no state we model.
-/

namespace SceneViewer

/-- Key-state map, embedding `FastHashMap<u32, bool>` (`scancode_status`):
a finite map from scancode to pressed/released, as a function to `Option`. -/
def KeyMap : Type := Nat → Option Bool

/-- The empty map (`FastHashMap::default()`). -/
def KeyMap.empty : KeyMap := fun _ => none

/-- `HashMap::insert`: later insertions overwrite earlier ones. -/
def KeyMap.insert (m : KeyMap) (k : Nat) (v : Bool) : KeyMap :=
  fun q => if q = k then some v else m q

/-- `fn button_pressed<Hash>(map: &HashMap<u32, bool, Hash>, key: u32) -> bool`
(lib.rs 144-146): `map.get(&key).map_or(false, |b| *b)`. -/
def button_pressed (map : KeyMap) (key : Nat) : Bool :=
  (map key).elim false (fun b => b)

/-- Modelled from the spec: the scancode constants live in `src/platform.rs`
(`mod platform;`), which is not among the provided sources.  The spec lists
the keys (forward/back/strafe-left/strafe-right/up/run-modifier/quit-grab);
distinct standard PC scancodes stand in for the missing constants. -/
def Scancodes.W : Nat := 17

/-- Modelled from the spec: back key (see `Scancodes.W`). -/
def Scancodes.S : Nat := 31

/-- Modelled from the spec: strafe-left key (see `Scancodes.W`). -/
def Scancodes.A : Nat := 30

/-- Modelled from the spec: strafe-right key (see `Scancodes.W`). -/
def Scancodes.D : Nat := 32

/-- Modelled from the spec: up key (see `Scancodes.W`). -/
def Scancodes.Q : Nat := 16

/-- Modelled from the spec: run-modifier key (see `Scancodes.W`). -/
def Scancodes.SHIFT : Nat := 42

/-- Modelled from the spec: quit-grab key (see `Scancodes.W`). -/
def Scancodes.ESCAPE : Nat := 1

noncomputable section

/-- glam `Vec3A` over idealised reals. -/
structure Vec3 where
  x : ℝ
  y : ℝ
  z : ℝ

/-- Componentwise vector addition (`Vec3A: Add`). -/
def vadd (a b : Vec3) : Vec3 := ⟨a.x + b.x, a.y + b.y, a.z + b.z⟩

/-- Componentwise vector subtraction (`Vec3A: Sub`). -/
def vsub (a b : Vec3) : Vec3 := ⟨a.x - b.x, a.y - b.y, a.z - b.z⟩

/-- Vector negation (`Vec3A: Neg`). -/
def vneg (a : Vec3) : Vec3 := ⟨-a.x, -a.y, -a.z⟩

/-- Scalar multiplication `v * c` (`Vec3A: Mul<f32>`). -/
def vscale (a : Vec3) (c : ℝ) : Vec3 := ⟨a.x * c, a.y * c, a.z * c⟩

/-- Dot product (`Vec3A::dot`). -/
def vdot (a b : Vec3) : ℝ := a.x * b.x + a.y * b.y + a.z * b.z

/-- Euclidean length (`Vec3A::length`). -/
def vnorm (a : Vec3) : ℝ := Real.sqrt (vdot a a)

/-- glam `Mat3A`, stored as its three columns, glam's `x_axis`/`y_axis`/`z_axis`. -/
structure Mat3 where
  x_axis : Vec3
  y_axis : Vec3
  z_axis : Vec3

/-- Matrix-vector product (column-vector convention, as in glam). -/
def mulVec (m : Mat3) (v : Vec3) : Vec3 :=
  vadd (vadd (vscale m.x_axis v.x) (vscale m.y_axis v.y)) (vscale m.z_axis v.z)

/-- Matrix product (`Mat3A: Mul`). -/
def matMul (a b : Mat3) : Mat3 :=
  ⟨mulVec a b.x_axis, mulVec a b.y_axis, mulVec a b.z_axis⟩

/-- `Mat3A::transpose`. -/
def transposeM (m : Mat3) : Mat3 :=
  ⟨⟨m.x_axis.x, m.y_axis.x, m.z_axis.x⟩,
   ⟨m.x_axis.y, m.y_axis.y, m.z_axis.y⟩,
   ⟨m.x_axis.z, m.y_axis.z, m.z_axis.z⟩⟩

/-- `Mat3A::from_rotation_x`. -/
def from_rotation_x (a : ℝ) : Mat3 :=
  ⟨⟨1, 0, 0⟩, ⟨0, Real.cos a, Real.sin a⟩, ⟨0, -Real.sin a, Real.cos a⟩⟩

/-- `Mat3A::from_rotation_y`. -/
def from_rotation_y (a : ℝ) : Mat3 :=
  ⟨⟨Real.cos a, 0, -Real.sin a⟩, ⟨0, 1, 0⟩, ⟨Real.sin a, 0, Real.cos a⟩⟩

/-- `Mat3A::from_rotation_z`. -/
def from_rotation_z (a : ℝ) : Mat3 :=
  ⟨⟨Real.cos a, Real.sin a, 0⟩, ⟨-Real.sin a, Real.cos a, 0⟩, ⟨0, 0, 1⟩⟩

/-- `Mat3A::from_euler(EulerRot::XYZ, a, b, c)`: intrinsic X-Y-Z Tait-Bryan
rotation, i.e. `Rx(a) * Ry(b) * Rz(c)` in the column-vector convention. -/
def from_euler_xyz (a b c : ℝ) : Mat3 :=
  matMul (matMul (from_rotation_x a) (from_rotation_y b)) (from_rotation_z c)

/-- `std::f32::consts::PI * 2.0`, the local `TAU` of the mouse-motion arm. -/
def TAU : ℝ := Real.pi * 2

/-- `std::f32::consts::FRAC_PI_2`. -/
def FRAC_PI_2 : ℝ := Real.pi / 2

/-- `std::f32::consts::FRAC_PI_4`. -/
def FRAC_PI_4 : ℝ := Real.pi / 4

/-- `std::f32::consts::FRAC_PI_8`. -/
def FRAC_PI_8 : ℝ := Real.pi / 8

/-- Rust `f32::clamp(self, min, max)` = `self.max(min).min(max)`
(the source calls it with `min ≤ max`, so the panic branch is dead). -/
def rclamp (x lo hi : ℝ) : ℝ := min (max x lo) hi

/-- `--walk` flag handling (lib.rs 372):
`args.value_from_str("--walk").unwrap_or(10.0_f32)`. -/
def walk_speed_of (arg : Option ℝ) : ℝ := arg.getD 10

/-- `--run` flag handling (lib.rs 373):
`args.value_from_str("--run").unwrap_or(50.0_f32)`. -/
def run_speed_of (arg : Option ℝ) : ℝ := arg.getD 50

/-- The mutable state of `SceneViewer` that the camera/input claims touch,
plus the pointer-grab flag held by the `rend3_framework::Grabber`.
The `grabbed` flag itself is modelled from the spec: the `Grabber` type is an
external collaborator, and the spec says capture is entered by a left mouse
click and exited by Escape or by the window losing focus. -/
structure AppState where
  absolute_mouse : Bool
  walk_speed : ℝ
  run_speed : ℝ
  scancode_status : KeyMap
  camera_pitch : ℝ
  camera_yaw : ℝ
  camera_location : Vec3
  last_mouse_delta : Option (ℝ × ℝ)
  grabbed : Bool

/-- The event-loop events relevant to the integrator (`handle_event`, lib.rs
640-958): the per-frame `AboutToWait` tick carrying the measured
`delta_time` in seconds, keyboard input, a left-mouse press, window focus
change, and a device mouse-motion event. -/
inductive Ev where
  | about_to_wait (delta_time : ℝ)
  | keyboard_input (scancode : Nat) (pressed : Bool)
  | mouse_input_left_pressed
  | focused (f : Bool)
  | mouse_motion (dx dy : ℝ)

/-- The camera rotation built each tick (lib.rs 675-681):
`Mat3A::from_euler(EulerRot::XYZ, -pitch, -yaw, 0.0).transpose()`. -/
def cam_rotation (pitch yaw : ℝ) : Mat3 :=
  transposeM (from_euler_xyz (-pitch) (-yaw) 0)

/-- The mouse-look integration step (lib.rs 940-950): subtract the scaled
delta from yaw/pitch, wrap yaw into `[0, TAU)` by one correction, and clamp
pitch into `[-FRAC_PI_2 + 0.0001, FRAC_PI_2 - 0.0001]`. -/
def apply_mouse_look (s : AppState) (mouse_delta : ℝ × ℝ) : AppState :=
  let yaw0 := s.camera_yaw - mouse_delta.1 / 1000
  let yaw1 := if yaw0 < 0 then yaw0 + TAU else if TAU ≤ yaw0 then yaw0 - TAU else yaw0
  let pitch0 := s.camera_pitch - mouse_delta.2 / 1000
  let pitch1 := rclamp pitch0 (-FRAC_PI_2 + 0.0001) (FRAC_PI_2 - 0.0001)
  { s with camera_yaw := yaw1, camera_pitch := pitch1 }

/-- The `DeviceEvent::MouseMotion` arm (lib.rs 915-951): return unchanged
when not grabbed; in absolute-pointer mode `Option::replace` the
previous-sample buffer and, when a previous sample existed, integrate the
synthetic delta `(current - previous) / 4`; in relative mode integrate the
raw delta. -/
def handle_mouse_motion (s : AppState) (dx dy : ℝ) : AppState :=
  if s.grabbed = false then s
  else
    match s.absolute_mouse, s.last_mouse_delta with
    | true, none => { s with last_mouse_delta := some (dx, dy) }
    | true, some prev =>
        apply_mouse_look { s with last_mouse_delta := some (dx, dy) }
          ((dx - prev.1) / 4, (dy - prev.2) / 4)
    | false, _ => apply_mouse_look s (dx, dy)

/-- The `Event::AboutToWait` arm (lib.rs 640-736), restricted to the state we
model: build the movement basis from the current pitch/yaw, pick run or walk
speed by the SHIFT key, add each held movement key's contribution to the
position, and honour ESCAPE's `request_ungrab`.  The histogram bookkeeping
and the PERIOD/P print branches only produce output and change no modelled
state. -/
def handle_tick (s : AppState) (delta_time : ℝ) : AppState :=
  let rotation := cam_rotation s.camera_pitch s.camera_yaw
  let forward := vneg rotation.z_axis
  let up := rotation.y_axis
  let side := vneg rotation.x_axis
  let velocity :=
    if button_pressed s.scancode_status Scancodes.SHIFT then s.run_speed else s.walk_speed
  let loc := s.camera_location
  let loc :=
    if button_pressed s.scancode_status Scancodes.W then
      vadd loc (vscale (vscale forward velocity) delta_time)
    else loc
  let loc :=
    if button_pressed s.scancode_status Scancodes.S then
      vsub loc (vscale (vscale forward velocity) delta_time)
    else loc
  let loc :=
    if button_pressed s.scancode_status Scancodes.A then
      vadd loc (vscale (vscale side velocity) delta_time)
    else loc
  let loc :=
    if button_pressed s.scancode_status Scancodes.D then
      vsub loc (vscale (vscale side velocity) delta_time)
    else loc
  let loc :=
    if button_pressed s.scancode_status Scancodes.Q then
      vadd loc (vscale (vscale up velocity) delta_time)
    else loc
  let grabbed :=
    if button_pressed s.scancode_status Scancodes.ESCAPE then false else s.grabbed
  { s with camera_location := loc, grabbed := grabbed }

/-- One step of `handle_event` (lib.rs 640-958) on the modelled state. -/
def handle_event (s : AppState) (e : Ev) : AppState :=
  match e with
  | Ev.about_to_wait dt => handle_tick s dt
  | Ev.keyboard_input sc pr => { s with scancode_status := s.scancode_status.insert sc pr }
  | Ev.mouse_input_left_pressed =>
      if s.grabbed = false then { s with grabbed := true } else s
  | Ev.focused f => if f = false then { s with grabbed := false } else s
  | Ev.mouse_motion dx dy => handle_mouse_motion s dx dy

/-- Fold a list of events through `handle_event`. -/
def run_events (s : AppState) (l : List Ev) : AppState := l.foldl handle_event s

/-- The state built by `SceneViewer::new` (lib.rs 372-385, 439-470) when no
command-line flags other than (possibly) `--absolute-mouse` are given: the
default `--camera` pose is `3,3,3,-FRAC_PI_8,FRAC_PI_4`, the speeds default
through `unwrap_or`, the key map is empty, the previous-sample buffer is
`None`, and the pointer starts ungrabbed. -/
def init_state (absolute_mouse : Bool) : AppState :=
  { absolute_mouse := absolute_mouse
    walk_speed := walk_speed_of none
    run_speed := run_speed_of none
    scancode_status := KeyMap.empty
    camera_pitch := -FRAC_PI_8
    camera_yaw := FRAC_PI_4
    camera_location := ⟨3, 3, 3⟩
    last_mouse_delta := none
    grabbed := false }

end

/-! ### Projection lemmas for `apply_mouse_look` -/

lemma apply_mouse_look_yaw (s : AppState) (d : ℝ × ℝ) :
    (apply_mouse_look s d).camera_yaw =
      (if s.camera_yaw - d.1 / 1000 < 0 then s.camera_yaw - d.1 / 1000 + TAU
       else if TAU ≤ s.camera_yaw - d.1 / 1000 then s.camera_yaw - d.1 / 1000 - TAU
       else s.camera_yaw - d.1 / 1000) := rfl

lemma apply_mouse_look_pitch (s : AppState) (d : ℝ × ℝ) :
    (apply_mouse_look s d).camera_pitch =
      rclamp (s.camera_pitch - d.2 / 1000) (-FRAC_PI_2 + 0.0001) (FRAC_PI_2 - 0.0001) := rfl

lemma apply_mouse_look_location (s : AppState) (d : ℝ × ℝ) :
    (apply_mouse_look s d).camera_location = s.camera_location := rfl

/-! ### The movement basis: squared norms and dot products -/

lemma cam_forward_sq (pitch yaw : ℝ) :
    vdot (vneg (cam_rotation pitch yaw).z_axis) (vneg (cam_rotation pitch yaw).z_axis) = 1 := by
  simp only [cam_rotation, from_euler_xyz, matMul, mulVec, transposeM, from_rotation_x,
    from_rotation_y, from_rotation_z, vneg, vadd, vscale, vdot, Real.cos_zero, Real.sin_zero]
  nlinarith [Real.sin_sq_add_cos_sq (-pitch), Real.sin_sq_add_cos_sq (-yaw)]

lemma cam_up_sq (pitch yaw : ℝ) :
    vdot (cam_rotation pitch yaw).y_axis (cam_rotation pitch yaw).y_axis = 1 := by
  simp only [cam_rotation, from_euler_xyz, matMul, mulVec, transposeM, from_rotation_x,
    from_rotation_y, from_rotation_z, vneg, vadd, vscale, vdot, Real.cos_zero, Real.sin_zero]
  nlinarith [Real.sin_sq_add_cos_sq (-pitch), Real.sin_sq_add_cos_sq (-yaw)]

lemma cam_side_sq (pitch yaw : ℝ) :
    vdot (vneg (cam_rotation pitch yaw).x_axis) (vneg (cam_rotation pitch yaw).x_axis) = 1 := by
  simp only [cam_rotation, from_euler_xyz, matMul, mulVec, transposeM, from_rotation_x,
    from_rotation_y, from_rotation_z, vneg, vadd, vscale, vdot, Real.cos_zero, Real.sin_zero]
  nlinarith [Real.sin_sq_add_cos_sq (-pitch), Real.sin_sq_add_cos_sq (-yaw)]

lemma cam_forward_up (pitch yaw : ℝ) :
    vdot (vneg (cam_rotation pitch yaw).z_axis) (cam_rotation pitch yaw).y_axis = 0 := by
  simp only [cam_rotation, from_euler_xyz, matMul, mulVec, transposeM, from_rotation_x,
    from_rotation_y, from_rotation_z, vneg, vadd, vscale, vdot, Real.cos_zero, Real.sin_zero]
  linear_combination (Real.sin (-pitch) * Real.cos (-pitch)) * Real.sin_sq_add_cos_sq (-yaw)

lemma cam_forward_side (pitch yaw : ℝ) :
    vdot (vneg (cam_rotation pitch yaw).z_axis) (vneg (cam_rotation pitch yaw).x_axis) = 0 := by
  simp only [cam_rotation, from_euler_xyz, matMul, mulVec, transposeM, from_rotation_x,
    from_rotation_y, from_rotation_z, vneg, vadd, vscale, vdot, Real.cos_zero, Real.sin_zero]
  ring

lemma cam_up_side (pitch yaw : ℝ) :
    vdot (cam_rotation pitch yaw).y_axis (vneg (cam_rotation pitch yaw).x_axis) = 0 := by
  simp only [cam_rotation, from_euler_xyz, matMul, mulVec, transposeM, from_rotation_x,
    from_rotation_y, from_rotation_z, vneg, vadd, vscale, vdot, Real.cos_zero, Real.sin_zero]
  ring

/-! ### Claim theorems -/

/-- C9: `button_pressed` returns `true` exactly when the key is present in the
map with stored state `true`; a key never seen (absent from the map) reads as
not pressed.  The query is a pure function of the map, so it cannot modify it. -/
theorem C9_button_pressed_default_false (m : KeyMap) (key : Nat) :
    button_pressed m key = true ↔ m key = some true := by
  cases h : m key with
  | none => simp [button_pressed, h]
  | some b => cases b <;> simp [button_pressed, h]

/-- C4: mouse-motion events delivered while the pointer is not grabbed leave
the whole modelled state — in particular yaw, pitch and position — unchanged:
folding any list of uncaptured mouse-motion events is the identity. -/
theorem C4_uncaptured_motion_discarded (s : AppState) (l : List (ℝ × ℝ))
    (hg : s.grabbed = false) :
    run_events s (l.map fun d => Ev.mouse_motion d.1 d.2) = s := by
  induction l with
  | nil => rfl
  | cons d t ih =>
      have h1 : handle_event s (Ev.mouse_motion d.1 d.2) = s := by
        simp [handle_event, handle_mouse_motion, hg]
      simp only [List.map_cons, run_events, List.foldl_cons] at ih ⊢
      rw [h1]
      exact ih

/-- Witness for C4: ten concrete uncaptured mouse-motion events leave the
freshly constructed state untouched. -/
theorem C4_uncaptured_motion_discarded_witness :
    (init_state false).grabbed = false ∧
      run_events (init_state false)
        (([(1, 2), (3, 4), (5, 6), (7, 8), (9, 10),
           (11, 12), (13, 14), (15, 16), (17, 18), (19, 20)] : List (ℝ × ℝ)).map
          fun d => Ev.mouse_motion d.1 d.2) = init_state false :=
  ⟨rfl, C4_uncaptured_motion_discarded (init_state false) _ rfl⟩

/-- C7: the movement basis built each frame tick from the current yaw/pitch —
`forward = -(cam_rotation pitch yaw).z_axis`, `up = (cam_rotation pitch yaw).y_axis`,
`side = -(cam_rotation pitch yaw).x_axis`, with `cam_rotation` the transposed
XYZ Euler rotation at negated pitch and yaw — is orthonormal: all three
vectors have unit length and are pairwise orthogonal. -/
theorem C7_tick_basis_orthonormal (pitch yaw : ℝ) :
    vdot (vneg (cam_rotation pitch yaw).z_axis) (vneg (cam_rotation pitch yaw).z_axis) = 1 ∧
    vdot (cam_rotation pitch yaw).y_axis (cam_rotation pitch yaw).y_axis = 1 ∧
    vdot (vneg (cam_rotation pitch yaw).x_axis) (vneg (cam_rotation pitch yaw).x_axis) = 1 ∧
    vdot (vneg (cam_rotation pitch yaw).z_axis) (cam_rotation pitch yaw).y_axis = 0 ∧
    vdot (vneg (cam_rotation pitch yaw).z_axis) (vneg (cam_rotation pitch yaw).x_axis) = 0 ∧
    vdot (cam_rotation pitch yaw).y_axis (vneg (cam_rotation pitch yaw).x_axis) = 0 :=
  ⟨cam_forward_sq pitch yaw, cam_up_sq pitch yaw, cam_side_sq pitch yaw,
   cam_forward_up pitch yaw, cam_forward_side pitch yaw, cam_up_side pitch yaw⟩

/-- C1 counterexample: the claim as stated is false.  Starting from the
default pose (yaw = π/4) with the pointer captured, a single relative
mouse-motion event with `delta_x = 20000` — a scaled yaw delta of `20`, which
exceeds 2π in magnitude — leaves the yaw at `π/4 - 20 + 2π < 0` after the
single `+= TAU` correction, outside `[0, 2π)`. -/
theorem C1_counterexample :
    (run_events (init_state false)
        [Ev.mouse_input_left_pressed, Ev.mouse_motion 20000 0]).camera_yaw < 0 := by
  have hrun : run_events (init_state false)
        [Ev.mouse_input_left_pressed, Ev.mouse_motion 20000 0] =
      apply_mouse_look { init_state false with grabbed := true } (20000, 0) := rfl
  rw [hrun, apply_mouse_look_yaw]
  have hyaw : ({ init_state false with grabbed := true } : AppState).camera_yaw =
      Real.pi / 4 := rfl
  rw [hyaw]
  rw [if_pos (by nlinarith [Real.pi_lt_d2])]
  simp only [TAU]
  nlinarith [Real.pi_lt_d2]

/-- C1 (amended): after a captured relative mouse-motion event, the yaw stays
in `[0, 2π)` provided it was in `[0, 2π)` before and the scaled delta
`delta_x / 1000` has magnitude at most 2π; the single `± 2π` correction is
exactly enough for such deltas (a single scaled delta beyond 2π escapes the
range, see the counterexample). -/
theorem C1_yaw_wrap_in_range (s : AppState) (dx dy : ℝ)
    (hg : s.grabbed = true) (habs : s.absolute_mouse = false)
    (h0 : 0 ≤ s.camera_yaw) (h1 : s.camera_yaw < TAU)
    (hd : |dx / 1000| ≤ TAU) :
    0 ≤ (handle_event s (Ev.mouse_motion dx dy)).camera_yaw ∧
      (handle_event s (Ev.mouse_motion dx dy)).camera_yaw < TAU := by
  have hmm : handle_event s (Ev.mouse_motion dx dy) = apply_mouse_look s (dx, dy) := by
    simp [handle_event, handle_mouse_motion, hg, habs]
  rw [hmm, apply_mouse_look_yaw]
  obtain ⟨hd1, hd2⟩ := abs_le.mp hd
  split_ifs with hA hB
  · constructor <;> linarith
  · constructor <;> linarith
  · exact ⟨le_of_not_lt hA, lt_of_not_le hB⟩

/-- Witness for C1: from the default captured state (yaw = π/4), a relative
delta of 1000 (scaled delta 1 ≤ 2π) keeps the yaw inside `[0, 2π)`. -/
theorem C1_yaw_wrap_in_range_witness :
    ((handle_event (init_state false) Ev.mouse_input_left_pressed).grabbed = true ∧
      (handle_event (init_state false) Ev.mouse_input_left_pressed).absolute_mouse = false ∧
      0 ≤ (handle_event (init_state false) Ev.mouse_input_left_pressed).camera_yaw ∧
      (handle_event (init_state false) Ev.mouse_input_left_pressed).camera_yaw < TAU ∧
      |(1000 : ℝ) / 1000| ≤ TAU) ∧
    (0 ≤ (handle_event (handle_event (init_state false) Ev.mouse_input_left_pressed)
        (Ev.mouse_motion 1000 0)).camera_yaw ∧
      (handle_event (handle_event (init_state false) Ev.mouse_input_left_pressed)
        (Ev.mouse_motion 1000 0)).camera_yaw < TAU) := by
  have hyaw : (handle_event (init_state false) Ev.mouse_input_left_pressed).camera_yaw =
      Real.pi / 4 := rfl
  have h0 : 0 ≤ (handle_event (init_state false) Ev.mouse_input_left_pressed).camera_yaw := by
    rw [hyaw]; positivity
  have h1 : (handle_event (init_state false) Ev.mouse_input_left_pressed).camera_yaw < TAU := by
    rw [hyaw]; simp only [TAU]; nlinarith [Real.pi_pos]
  have hd : |(1000 : ℝ) / 1000| ≤ TAU := by
    rw [show ((1000 : ℝ) / 1000) = 1 by norm_num, abs_one]
    simp only [TAU]; nlinarith [Real.pi_gt_three]
  exact ⟨⟨rfl, rfl, h0, h1, hd⟩,
    C1_yaw_wrap_in_range (handle_event (init_state false) Ev.mouse_input_left_pressed)
      1000 0 rfl rfl h0 h1 hd⟩

/-- C2: after any captured relative mouse-motion event the pitch is strictly
inside `(-π/2, π/2)`; moreover a delta that would push the raw pitch to or
past the clamp bound saturates it at exactly `-π/2 + 1e-4` or `π/2 - 1e-4`. -/
theorem C2_pitch_clamped (s : AppState) (dx dy : ℝ)
    (hg : s.grabbed = true) (habs : s.absolute_mouse = false) :
    (-FRAC_PI_2 < (handle_event s (Ev.mouse_motion dx dy)).camera_pitch ∧
      (handle_event s (Ev.mouse_motion dx dy)).camera_pitch < FRAC_PI_2) ∧
    (s.camera_pitch - dy / 1000 ≤ -FRAC_PI_2 + 0.0001 →
      (handle_event s (Ev.mouse_motion dx dy)).camera_pitch = -FRAC_PI_2 + 0.0001) ∧
    (FRAC_PI_2 - 0.0001 ≤ s.camera_pitch - dy / 1000 →
      (handle_event s (Ev.mouse_motion dx dy)).camera_pitch = FRAC_PI_2 - 0.0001) := by
  have hmm : handle_event s (Ev.mouse_motion dx dy) = apply_mouse_look s (dx, dy) := by
    simp [handle_event, handle_mouse_motion, hg, habs]
  rw [hmm, apply_mouse_look_pitch]
  have hlohi : -FRAC_PI_2 + 0.0001 ≤ FRAC_PI_2 - 0.0001 := by
    simp only [FRAC_PI_2]; nlinarith [Real.pi_gt_three]
  have hlo : -FRAC_PI_2 < -FRAC_PI_2 + 0.0001 := by norm_num
  have hhi : FRAC_PI_2 - 0.0001 < FRAC_PI_2 := by norm_num
  refine ⟨⟨?_, ?_⟩, ?_, ?_⟩
  · calc -FRAC_PI_2 < -FRAC_PI_2 + 0.0001 := hlo
      _ ≤ rclamp (s.camera_pitch - dy / 1000) (-FRAC_PI_2 + 0.0001) (FRAC_PI_2 - 0.0001) :=
        le_min (le_max_right _ _) hlohi
  · calc rclamp (s.camera_pitch - dy / 1000) (-FRAC_PI_2 + 0.0001) (FRAC_PI_2 - 0.0001)
        ≤ FRAC_PI_2 - 0.0001 := min_le_right _ _
      _ < FRAC_PI_2 := hhi
  · intro h
    have hmax : max (s.camera_pitch - dy / 1000) (-FRAC_PI_2 + 0.0001) =
        -FRAC_PI_2 + 0.0001 := max_eq_right h
    rw [rclamp, hmax]
    exact min_eq_left hlohi
  · intro h
    have hmax : max (s.camera_pitch - dy / 1000) (-FRAC_PI_2 + 0.0001) =
        s.camera_pitch - dy / 1000 := max_eq_left (le_trans hlohi h)
    rw [rclamp, hmax]
    exact min_eq_right h

/-- Witness for C2: from the default captured state (pitch = -π/8), an extreme
downward-look delta `delta_y = 10^7` drives the raw pitch far below `-π/2`,
and the handler reports a pitch strictly inside `(-π/2, π/2)`. -/
theorem C2_pitch_clamped_witness :
    ((handle_event (init_state false) Ev.mouse_input_left_pressed).grabbed = true ∧
      (handle_event (init_state false) Ev.mouse_input_left_pressed).absolute_mouse = false) ∧
    ((-FRAC_PI_2 <
        (handle_event (handle_event (init_state false) Ev.mouse_input_left_pressed)
          (Ev.mouse_motion 0 10000000)).camera_pitch ∧
      (handle_event (handle_event (init_state false) Ev.mouse_input_left_pressed)
          (Ev.mouse_motion 0 10000000)).camera_pitch < FRAC_PI_2) ∧
    ((handle_event (init_state false) Ev.mouse_input_left_pressed).camera_pitch -
        10000000 / 1000 ≤ -FRAC_PI_2 + 0.0001 →
      (handle_event (handle_event (init_state false) Ev.mouse_input_left_pressed)
          (Ev.mouse_motion 0 10000000)).camera_pitch = -FRAC_PI_2 + 0.0001) ∧
    (FRAC_PI_2 - 0.0001 ≤
        (handle_event (init_state false) Ev.mouse_input_left_pressed).camera_pitch -
          10000000 / 1000 →
      (handle_event (handle_event (init_state false) Ev.mouse_input_left_pressed)
          (Ev.mouse_motion 0 10000000)).camera_pitch = FRAC_PI_2 - 0.0001)) :=
  ⟨⟨rfl, rfl⟩,
    C2_pitch_clamped (handle_event (init_state false) Ev.mouse_input_left_pressed)
      0 10000000 rfl rfl⟩

/-- C3 counterexample: the claim as stated is false, because the
previous-sample buffer is *not* reset when the pointer is ungrabbed.  In
absolute-pointer mode: capture, one sample at (0,0) (seeds the buffer),
focus loss (capture ends), re-capture — and then the *first* motion sample
after capture begins, at (8,8), changes the yaw (by the synthetic delta
`((8,8) - (0,0)) / 4` scaled by 1/1000) instead of producing zero change. -/
theorem C3_counterexample :
    (run_events (init_state true)
        [Ev.mouse_input_left_pressed, Ev.mouse_motion 0 0, Ev.focused false,
         Ev.mouse_input_left_pressed, Ev.mouse_motion 8 8]).camera_yaw ≠
      (run_events (init_state true)
        [Ev.mouse_input_left_pressed, Ev.mouse_motion 0 0, Ev.focused false,
         Ev.mouse_input_left_pressed]).camera_yaw := by
  have hpre : (run_events (init_state true)
        [Ev.mouse_input_left_pressed, Ev.mouse_motion 0 0, Ev.focused false,
         Ev.mouse_input_left_pressed]).camera_yaw = Real.pi / 4 := rfl
  have hfull : (run_events (init_state true)
        [Ev.mouse_input_left_pressed, Ev.mouse_motion 0 0, Ev.focused false,
         Ev.mouse_input_left_pressed, Ev.mouse_motion 8 8]).camera_yaw =
      (if Real.pi / 4 - (8 - 0) / 4 / 1000 < 0 then Real.pi / 4 - (8 - 0) / 4 / 1000 + TAU
       else if TAU ≤ Real.pi / 4 - (8 - 0) / 4 / 1000 then
         Real.pi / 4 - (8 - 0) / 4 / 1000 - TAU
       else Real.pi / 4 - (8 - 0) / 4 / 1000) := rfl
  rw [hpre, hfull]
  rw [if_neg (not_lt.mpr (by nlinarith [Real.pi_gt_three]))]
  rw [if_neg (not_le.mpr (by simp only [TAU]; nlinarith [Real.pi_gt_three]))]
  intro h
  linarith [h]

/-- C3 (amended): in absolute-pointer mode with the pointer captured, a
motion sample finding the previous-sample buffer *empty* only seeds the
buffer and leaves the rest of the state (in particular yaw, pitch, position)
unchanged; a sample finding a previous sample `p` re-seeds the buffer and
integrates the synthetic delta `(current - p) / 4`.  The buffer is *not*
cleared when capture ends (focus loss), so after re-capture the first sample
integrates against the last sample of the previous capture; it produces zero
change only when the buffer has never been seeded. -/
theorem C3_absolute_first_sample (s : AppState) (dx dy : ℝ)
    (hg : s.grabbed = true) (habs : s.absolute_mouse = true) :
    (s.last_mouse_delta = none →
      handle_event s (Ev.mouse_motion dx dy) = { s with last_mouse_delta := some (dx, dy) }) ∧
    (∀ p : ℝ × ℝ, s.last_mouse_delta = some p →
      handle_event s (Ev.mouse_motion dx dy) =
        apply_mouse_look { s with last_mouse_delta := some (dx, dy) }
          ((dx - p.1) / 4, (dy - p.2) / 4)) ∧
    (handle_event s (Ev.focused false)).last_mouse_delta = s.last_mouse_delta := by
  refine ⟨?_, ?_, ?_⟩
  · intro h
    simp [handle_event, handle_mouse_motion, hg, habs, h]
  · intro p h
    simp [handle_event, handle_mouse_motion, hg, habs, h]
  · simp [handle_event]

/-- Witness for C3 (amended): in the freshly captured absolute-mouse state the
buffer is empty, and the first sample (5,6) only seeds it. -/
theorem C3_absolute_first_sample_witness :
    ((handle_event (init_state true) Ev.mouse_input_left_pressed).grabbed = true ∧
      (handle_event (init_state true) Ev.mouse_input_left_pressed).absolute_mouse = true ∧
      (handle_event (init_state true) Ev.mouse_input_left_pressed).last_mouse_delta = none) ∧
    handle_event (handle_event (init_state true) Ev.mouse_input_left_pressed)
        (Ev.mouse_motion 5 6) =
      { handle_event (init_state true) Ev.mouse_input_left_pressed with
        last_mouse_delta := some (5, 6) } :=
  ⟨⟨rfl, rfl, rfl⟩,
    (C3_absolute_first_sample (handle_event (init_state true) Ev.mouse_input_left_pressed)
      5 6 rfl rfl).1 rfl⟩

lemma vsub_add_cancel (loc a b : Vec3) :
    vsub (vsub (vadd loc a) b) loc = vsub a b := by
  simp only [vadd, vsub, Vec3.mk.injEq]
  refine ⟨by ring, by ring, by ring⟩

lemma vdot_sub_scale (u w : Vec3) (c d : ℝ) :
    vdot (vsub (vscale (vscale u c) d) (vscale (vscale w c) d))
      (vsub (vscale (vscale u c) d) (vscale (vscale w c) d)) =
      (vdot u u - 2 * vdot u w + vdot w w) * (c * d) ^ 2 := by
  simp only [vdot, vsub, vscale]
  ring

/-- C6: held movement keys combine additively without normalisation.  With
forward (W) and strafe-right (D) held, no other movement key held, the run
modifier released and walk speed 10, one frame tick of 1 second displaces the
camera by exactly `10 * √2`, not 10. -/
theorem C6_diagonal_displacement (s : AppState)
    (hW : button_pressed s.scancode_status Scancodes.W = true)
    (hS : button_pressed s.scancode_status Scancodes.S = false)
    (hA : button_pressed s.scancode_status Scancodes.A = false)
    (hD : button_pressed s.scancode_status Scancodes.D = true)
    (hQ : button_pressed s.scancode_status Scancodes.Q = false)
    (hShift : button_pressed s.scancode_status Scancodes.SHIFT = false)
    (hwalk : s.walk_speed = 10) :
    vnorm (vsub (handle_event s (Ev.about_to_wait 1)).camera_location s.camera_location) =
      10 * Real.sqrt 2 := by
  have hloc : (handle_event s (Ev.about_to_wait 1)).camera_location =
      vsub (vadd s.camera_location
          (vscale (vscale (vneg (cam_rotation s.camera_pitch s.camera_yaw).z_axis)
            s.walk_speed) 1))
        (vscale (vscale (vneg (cam_rotation s.camera_pitch s.camera_yaw).x_axis)
          s.walk_speed) 1) := by
    simp [handle_event, handle_tick, hW, hS, hA, hD, hQ, hShift]
  rw [hloc, hwalk, vsub_add_cancel]
  have h2 : vdot
      (vsub (vscale (vscale (vneg (cam_rotation s.camera_pitch s.camera_yaw).z_axis) 10) 1)
        (vscale (vscale (vneg (cam_rotation s.camera_pitch s.camera_yaw).x_axis) 10) 1))
      (vsub (vscale (vscale (vneg (cam_rotation s.camera_pitch s.camera_yaw).z_axis) 10) 1)
        (vscale (vscale (vneg (cam_rotation s.camera_pitch s.camera_yaw).x_axis) 10) 1)) =
      200 := by
    rw [vdot_sub_scale, cam_forward_sq, cam_forward_side, cam_side_sq]
    norm_num
  simp only [vnorm]
  rw [h2]
  rw [show (200 : ℝ) = 10 ^ 2 * 2 by norm_num,
    Real.sqrt_mul (by positivity : (0 : ℝ) ≤ 10 ^ 2),
    Real.sqrt_sq (by norm_num : (0 : ℝ) ≤ 10)]

/-- Witness for C6: from the default state with W and D pressed (walk speed
10), a 1-second tick displaces the camera by `10 * √2`. -/
theorem C6_diagonal_displacement_witness :
    (button_pressed (run_events (init_state false)
        [Ev.keyboard_input Scancodes.W true, Ev.keyboard_input Scancodes.D true]).scancode_status
        Scancodes.W = true ∧
      button_pressed (run_events (init_state false)
        [Ev.keyboard_input Scancodes.W true, Ev.keyboard_input Scancodes.D true]).scancode_status
        Scancodes.D = true ∧
      (run_events (init_state false)
        [Ev.keyboard_input Scancodes.W true, Ev.keyboard_input Scancodes.D true]).walk_speed =
        10) ∧
    vnorm (vsub (handle_event (run_events (init_state false)
          [Ev.keyboard_input Scancodes.W true, Ev.keyboard_input Scancodes.D true])
        (Ev.about_to_wait 1)).camera_location
      (run_events (init_state false)
          [Ev.keyboard_input Scancodes.W true, Ev.keyboard_input Scancodes.D true]).camera_location) =
      10 * Real.sqrt 2 :=
  ⟨⟨rfl, rfl, rfl⟩,
    C6_diagonal_displacement _ rfl rfl rfl rfl rfl rfl rfl⟩

/-- C8: with forward held and the other movement keys released, the
per-tick displacement is the forward vector scaled by the selected speed —
the run speed exactly when SHIFT is held, the walk speed otherwise — times
`delta_time`; and with the `--walk`/`--run` flags absent the speeds default
to 10 and 50. -/
theorem C8_run_walk_selection (s : AppState) (dt : ℝ)
    (hW : button_pressed s.scancode_status Scancodes.W = true)
    (hS : button_pressed s.scancode_status Scancodes.S = false)
    (hA : button_pressed s.scancode_status Scancodes.A = false)
    (hD : button_pressed s.scancode_status Scancodes.D = false)
    (hQ : button_pressed s.scancode_status Scancodes.Q = false) :
    (handle_event s (Ev.about_to_wait dt)).camera_location =
      vadd s.camera_location
        (vscale (vscale (vneg (cam_rotation s.camera_pitch s.camera_yaw).z_axis)
          (if button_pressed s.scancode_status Scancodes.SHIFT then s.run_speed
           else s.walk_speed)) dt) ∧
    walk_speed_of none = 10 ∧ run_speed_of none = 50 := by
  refine ⟨?_, rfl, rfl⟩
  by_cases h : button_pressed s.scancode_status Scancodes.SHIFT = true
  · simp [handle_event, handle_tick, hW, hS, hA, hD, hQ, h]
  · simp only [Bool.not_eq_true] at h
    simp [handle_event, handle_tick, hW, hS, hA, hD, hQ, h]

/-- Witness for C8: from the default state with SHIFT and W pressed, one
1-second tick moves by the forward vector times the run speed. -/
theorem C8_run_walk_selection_witness :
    (button_pressed (run_events (init_state false)
        [Ev.keyboard_input Scancodes.W true, Ev.keyboard_input Scancodes.SHIFT true]).scancode_status
        Scancodes.W = true ∧
      button_pressed (run_events (init_state false)
        [Ev.keyboard_input Scancodes.W true, Ev.keyboard_input Scancodes.SHIFT true]).scancode_status
        Scancodes.S = false) ∧
    ((handle_event (run_events (init_state false)
          [Ev.keyboard_input Scancodes.W true, Ev.keyboard_input Scancodes.SHIFT true])
        (Ev.about_to_wait 1)).camera_location =
      vadd (run_events (init_state false)
          [Ev.keyboard_input Scancodes.W true, Ev.keyboard_input Scancodes.SHIFT true]).camera_location
        (vscale (vscale (vneg (cam_rotation
            (run_events (init_state false)
              [Ev.keyboard_input Scancodes.W true,
               Ev.keyboard_input Scancodes.SHIFT true]).camera_pitch
            (run_events (init_state false)
              [Ev.keyboard_input Scancodes.W true,
               Ev.keyboard_input Scancodes.SHIFT true]).camera_yaw).z_axis)
          (if button_pressed (run_events (init_state false)
              [Ev.keyboard_input Scancodes.W true,
               Ev.keyboard_input Scancodes.SHIFT true]).scancode_status Scancodes.SHIFT then
            (run_events (init_state false)
              [Ev.keyboard_input Scancodes.W true,
               Ev.keyboard_input Scancodes.SHIFT true]).run_speed
           else
            (run_events (init_state false)
              [Ev.keyboard_input Scancodes.W true,
               Ev.keyboard_input Scancodes.SHIFT true]).walk_speed)) 1) ∧
      walk_speed_of none = 10 ∧ run_speed_of none = 50) :=
  ⟨⟨rfl, rfl⟩,
    C8_run_walk_selection _ 1 rfl rfl rfl rfl rfl⟩

/-- C10: keyboard movement is integrated on every frame tick regardless of
the pointer-grab state.  First, the position produced by a tick does not
depend on the grab flag at all; second, with the pointer *not* captured,
forward held, the other movement keys and SHIFT released, positive walk
speed, and positive `delta_time`, the tick really changes the position. -/
theorem C10_keyboard_not_gated_by_grab (s : AppState) (dt : ℝ) :
    (∀ g : Bool,
      (handle_event { s with grabbed := g } (Ev.about_to_wait dt)).camera_location =
        (handle_event s (Ev.about_to_wait dt)).camera_location) ∧
    (s.grabbed = false →
      button_pressed s.scancode_status Scancodes.W = true →
      button_pressed s.scancode_status Scancodes.S = false →
      button_pressed s.scancode_status Scancodes.A = false →
      button_pressed s.scancode_status Scancodes.D = false →
      button_pressed s.scancode_status Scancodes.Q = false →
      button_pressed s.scancode_status Scancodes.SHIFT = false →
      0 < s.walk_speed → 0 < dt →
      (handle_event s (Ev.about_to_wait dt)).camera_location ≠ s.camera_location) := by
  constructor
  · intro g
    rfl
  · intro hg hW hS hA hD hQ hShift hv hdt heq
    have hloc : (handle_event s (Ev.about_to_wait dt)).camera_location =
        vadd s.camera_location
          (vscale (vscale (vneg (cam_rotation s.camera_pitch s.camera_yaw).z_axis)
            s.walk_speed) dt) := by
      simp [handle_event, handle_tick, hW, hS, hA, hD, hQ, hShift]
    rw [hloc] at heq
    have hx := congrArg Vec3.x heq
    have hy := congrArg Vec3.y heq
    have hz := congrArg Vec3.z heq
    simp only [vadd, vscale] at hx hy hz
    have hFF : vdot (vneg (cam_rotation s.camera_pitch s.camera_yaw).z_axis)
        (vneg (cam_rotation s.camera_pitch s.camera_yaw).z_axis) * (s.walk_speed * dt) = 0 := by
      simp only [vdot]
      linear_combination
        (vneg (cam_rotation s.camera_pitch s.camera_yaw).z_axis).x * hx +
        (vneg (cam_rotation s.camera_pitch s.camera_yaw).z_axis).y * hy +
        (vneg (cam_rotation s.camera_pitch s.camera_yaw).z_axis).z * hz
    rw [cam_forward_sq, one_mul] at hFF
    exact (mul_pos hv hdt).ne' hFF

/-- Witness for C10: with only W pressed from the default (ungrabbed) state,
a 1-second tick moves the camera, and forcing the grab flag on gives the
same position. -/
theorem C10_keyboard_not_gated_by_grab_witness :
    ((handle_event { run_events (init_state false) [Ev.keyboard_input Scancodes.W true] with
          grabbed := true } (Ev.about_to_wait 1)).camera_location =
      (handle_event (run_events (init_state false) [Ev.keyboard_input Scancodes.W true])
        (Ev.about_to_wait 1)).camera_location) ∧
    ((run_events (init_state false) [Ev.keyboard_input Scancodes.W true]).grabbed = false ∧
      0 < (run_events (init_state false) [Ev.keyboard_input Scancodes.W true]).walk_speed) ∧
    (handle_event (run_events (init_state false) [Ev.keyboard_input Scancodes.W true])
        (Ev.about_to_wait 1)).camera_location ≠
      (run_events (init_state false) [Ev.keyboard_input Scancodes.W true]).camera_location := by
  have hv : 0 < (run_events (init_state false)
      [Ev.keyboard_input Scancodes.W true]).walk_speed := by
    have h10 : (run_events (init_state false)
        [Ev.keyboard_input Scancodes.W true]).walk_speed = 10 := rfl
    rw [h10]
    norm_num
  exact ⟨(C10_keyboard_not_gated_by_grab _ 1).1 true, ⟨rfl, hv⟩,
    (C10_keyboard_not_gated_by_grab _ 1).2 rfl rfl rfl rfl rfl rfl rfl hv (by norm_num)⟩

end SceneViewer
